import Mathlib

/-!
Verification of the vistransits detectability-scoring pipeline
(src/vistransits/tsignals.py) against its specification.

The numeric layer of the program is floating point; it is modelled here over
the exact reals.  Catalog columns that may be undefined (numpy NaN) are
modelled as Option values: none stands for NaN, and NaN propagation through
arithmetic is modelled by Option-lifted operations.  Overflow and other
non-finite behaviours of floats are outside the claims considered here (the
spec itself documents them as unguarded).
-/

namespace Vistransits

/-- Gravitational constant in m^3 kg^-1 s^-2 (tsignals.py line 7). -/
noncomputable def G : ℝ := 6.67428e-11

/-- Planck constant in J s (line 8). -/
noncomputable def HPLANCK : ℝ := 6.62607e-34

/-- Speed of light in m/s (line 9). -/
noncomputable def C : ℝ := 2.99792e8

/-- Boltzmann constant in J/K (line 10). -/
noncomputable def KB : ℝ := 1.3806488e-23

/-- Gas constant in J/mol/K (line 11). -/
noncomputable def RGAS : ℝ := 8.314

/-- Solar radius in m (line 12). -/
noncomputable def RSUN : ℝ := 6.9551e8

/-- Jupiter radius in m (line 13). -/
noncomputable def RJUP : ℝ := 7.1492e7

/-- Jupiter mass in kg (line 14). -/
noncomputable def MJUP : ℝ := 1.89852e27

/-- AU to metres conversion factor (line 15). -/
noncomputable def AU2M : ℝ := 1.49598e11

/-- Jupiter atmosphere mean molecular weight in kg/mole (line 16). -/
noncomputable def MUJUP : ℝ := 2.22e-3

/-- Base-10 logarithm, the model of np.log10. -/
noncomputable def log10 (x : ℝ) : ℝ := Real.log x / Real.log 10

/-- Planck blackbody law (tsignals.py lines 282-293):
term1 = 2 * HPLANCK * C**2 / wav**5,
term2 = exp( HPLANCK * C / KB / wav / temp ) - 1,
bbflux = term1 / term2.
The float power wav**5. agrees with the natural-number power for the
positive wavelengths the pipeline uses. -/
noncomputable def planck (wav temp : ℝ) : ℝ :=
  2 * HPLANCK * C ^ 2 / wav ^ 5 / (Real.exp (HPLANCK * C / KB / wav / temp) - 1)

/-- Equilibrium temperature (lines 267-280): Rstar = RSTAR * RSUN,
a = A * AU2M, Teq = sqrt( Rstar / 2 / a ) * Tstar.  Arguments are the
catalog values RSTAR (solar radii), A (AU) and TEFF (K). -/
noncomputable def Teq (rstar a teff : ℝ) : ℝ :=
  Real.sqrt (rstar * RSUN / 2 / (a * AU2M)) * teff

theorem planck_pos_aux {wav temp : ℝ} (hw : 0 < wav) (ht : 0 < temp) :
    0 < planck wav temp := by
  unfold planck
  have hnum : 0 < 2 * HPLANCK * C ^ 2 / wav ^ 5 := by
    have hH : (0:ℝ) < HPLANCK := by norm_num [HPLANCK]
    have hC : (0:ℝ) < C := by norm_num [C]
    positivity
  have harg : 0 < HPLANCK * C / KB / wav / temp := by
    have h1 : (0:ℝ) < HPLANCK * C / KB := by norm_num [HPLANCK, C, KB]
    positivity
  have hden : 0 < Real.exp (HPLANCK * C / KB / wav / temp) - 1 := by
    have := Real.one_lt_exp_iff.mpr harg
    linarith
  exact div_pos hnum hden

theorem planck_lt_planck_of_lt {wav T1 T2 : ℝ} (hw : 0 < wav)
    (h1 : 0 < T1) (h12 : T1 < T2) : planck wav T1 < planck wav T2 := by
  unfold planck
  have hA : 0 < HPLANCK * C / KB / wav := by
    have h0 : (0:ℝ) < HPLANCK * C / KB := by norm_num [HPLANCK, C, KB]
    positivity
  have h2 : 0 < T2 := lt_trans h1 h12
  have hargs : HPLANCK * C / KB / wav / T2 < HPLANCK * C / KB / wav / T1 :=
    (div_lt_div_iff_of_pos_left hA h2 h1).mpr h12
  have hexp : Real.exp (HPLANCK * C / KB / wav / T2)
      < Real.exp (HPLANCK * C / KB / wav / T1) := Real.exp_lt_exp.mpr hargs
  have hd2 : 0 < Real.exp (HPLANCK * C / KB / wav / T2) - 1 := by
    have := Real.one_lt_exp_iff.mpr (by positivity :
      0 < HPLANCK * C / KB / wav / T2)
    linarith
  have hnum : 0 < 2 * HPLANCK * C ^ 2 / wav ^ 5 := by
    have hH : (0:ℝ) < HPLANCK := by norm_num [HPLANCK]
    have hC : (0:ℝ) < C := by norm_num [C]
    positivity
  exact (div_lt_div_iff_of_pos_left hnum (by linarith) hd2).mpr (by linarith)

/-- Claim C7: for wavelength 0 < lam and temperatures 0 < T1 < T2 (exact real
arithmetic), the Planck function is strictly positive and strictly increasing
in the temperature at a fixed wavelength. -/
theorem c7_planck (lam T1 T2 : ℝ) (hl : 0 < lam) (h1 : 0 < T1) (h12 : T1 < T2) :
    0 < planck lam T1 ∧ planck lam T1 < planck lam T2 :=
  ⟨planck_pos_aux hl h1, planck_lt_planck_of_lt hl h1 h12⟩

theorem c7_planck_witness :
    0 < planck 1 1 ∧ planck 1 1 < planck 1 2 :=
  c7_planck 1 1 2 (by norm_num) (by norm_num) (by norm_num)

/-- Claim C8: the equilibrium temperature equals
sqrt( Rstar / (2 a) ) * Tstar after unit conversion, and doubling the
semimajor axis divides the result by sqrt 2. -/
theorem c8_teq (rstar a teff : ℝ) (hr : 0 ≤ rstar) (ha : 0 < a) :
    Teq rstar a teff = Real.sqrt (rstar * RSUN / (2 * (a * AU2M))) * teff
      ∧ Teq rstar (2 * a) teff = Teq rstar a teff / Real.sqrt 2 := by
  have hAU : (0:ℝ) < AU2M := by norm_num [AU2M]
  have hRS : (0:ℝ) < RSUN := by norm_num [RSUN]
  constructor
  · unfold Teq
    rw [div_div]
  · unfold Teq
    have harg : rstar * RSUN / 2 / (2 * a * AU2M)
        = (rstar * RSUN / 2 / (a * AU2M)) / 2 := by
      rw [div_div, div_div, div_div]
      ring_nf
    have hnn : 0 ≤ rstar * RSUN / 2 / (a * AU2M) := by
      apply div_nonneg
      · apply div_nonneg (mul_nonneg hr hRS.le)
        norm_num
      · exact (mul_pos ha hAU).le
    rw [harg, Real.sqrt_div hnn]
    ring

/-- One catalog row (spec section 6; the columns of the atpy table read from
exoplanets_transiting.fits).  Numeric columns that can be undefined are
Option values: none models numpy NaN.  Values are rationals here; the real
scoring layer casts them to the reals.  RA and DEC are only ever used by the
textual report renderer, which is outside the claims. -/
structure CatalogRow where
  NAME : String
  RA : String
  DEC : String
  RSTAR : Option ℚ
  R : Option ℚ
  A : Option ℚ
  TEFF : Option ℚ
  KS : Option ℚ
  V : Option ℚ
  MASS : Option ℚ
  MSINI : Option ℚ
deriving DecidableEq

instance : Inhabited CatalogRow :=
  ⟨⟨"", "", "", none, none, none, none, none, none, none, none⟩⟩

/-- Signal type tag selecting the emission or transmission pipeline. -/
inductive SigType
  | emission
  | transmission
deriving DecidableEq

/-- Model of np.isfinite on a possibly-NaN column value. -/
def finite (o : Option ℚ) : Bool := o.isSome

/-- Model of the numpy comparison value > 0, which is False on NaN. -/
def posQ (o : Option ℚ) : Bool :=
  match o with
  | some v => decide (0 < v)
  | none => false

/-- filter_table (tsignals.py lines 242-265): successive t.where filters on
finite RSTAR, R, A, TEFF; for emission additionally finite KS; for
transmission additionally (finite KS or finite V) and then
(isfinite(MSINI) * (MSINI>0) + isfinite(MASS) * (MASS>0)).  numpy * and + on
boolean arrays are conjunction and disjunction.  The try/except around the
mass filter only guards against the MASS column being absent from the
downloaded table; the column is modelled as present.  The catalog download
step (tutilities.download_data) is external and not modelled. -/
def filterTable (sigtype : SigType) (t0 : List CatalogRow) : List CatalogRow :=
  let t1 := t0.filter (fun r => finite r.RSTAR)
  let t2 := t1.filter (fun r => finite r.R)
  let t3 := t2.filter (fun r => finite r.A)
  let t4 := t3.filter (fun r => finite r.TEFF)
  let t5 := if sigtype = SigType.emission then t4.filter (fun r => finite r.KS) else t4
  if sigtype = SigType.transmission then
    (t5.filter (fun r => finite r.KS || finite r.V)).filter
      (fun r => (finite r.MSINI && posQ r.MSINI) || (finite r.MASS && posQ r.MASS))
  else t5

/-- The required-field predicate of spec section 3 for a signal type: the
per-row condition that the chain of filters in filter_table enforces. -/
def requiredPred (sigtype : SigType) (r : CatalogRow) : Bool :=
  finite r.RSTAR && finite r.R && finite r.A && finite r.TEFF &&
    (match sigtype with
     | SigType.emission => finite r.KS
     | SigType.transmission =>
        (finite r.KS || finite r.V) &&
          ((finite r.MSINI && posQ r.MSINI) || (finite r.MASS && posQ r.MASS)))

theorem filterTable_eq_filter (sigtype : SigType) (rows : List CatalogRow) :
    filterTable sigtype rows = rows.filter (fun r => requiredPred sigtype r) := by
  cases sigtype <;>
    simp only [filterTable, requiredPred, List.filter_filter,
      reduceCtorEq, if_true, if_false, reduceIte] <;>
    · congr 1
      funext r
      cases finite r.RSTAR <;> cases finite r.R <;> cases finite r.A <;>
        cases finite r.TEFF <;> simp [Bool.and_comm]

/-- Claim C9: the filtered table is exactly the list of catalog rows passing
the required-field predicate of the signal type: it is a sublist of the
catalog (original order preserved), a row is a member exactly when it is a
catalog member passing the predicate, and each row occurs exactly as often
as in the catalog when it passes and never when it does not. -/
theorem c9_filter (sigtype : SigType) (rows : List CatalogRow) :
    filterTable sigtype rows = rows.filter (fun r => requiredPred sigtype r)
      ∧ (filterTable sigtype rows).Sublist rows
      ∧ (∀ r : CatalogRow, r ∈ filterTable sigtype rows ↔
          (r ∈ rows ∧ requiredPred sigtype r = true))
      ∧ (∀ r : CatalogRow, (filterTable sigtype rows).count r =
          if requiredPred sigtype r then rows.count r else 0) := by
  refine ⟨filterTable_eq_filter sigtype rows, ?_, ?_, ?_⟩
  · rw [filterTable_eq_filter]
    exact List.filter_sublist rows
  · intro r
    rw [filterTable_eq_filter, List.mem_filter]
  · intro r
    rw [filterTable_eq_filter]
    by_cases h : requiredPred sigtype r
    · rw [if_pos h, List.count_filter h]
    · rw [if_neg h, List.count_eq_zero]
      intro hmem
      exact h (List.mem_filter.mp hmem).2

/-- Claim C10: every row kept by the transmission filter has a defined and
strictly positive MASS or a defined and strictly positive MSINI; rows whose
defined values are zero or negative are excluded. -/
theorem c10_posmass (rows : List CatalogRow) (r : CatalogRow)
    (h : r ∈ filterTable SigType.transmission rows) :
    (∃ q : ℚ, r.MASS = some q ∧ 0 < q) ∨ (∃ q : ℚ, r.MSINI = some q ∧ 0 < q) := by
  rw [filterTable_eq_filter, List.mem_filter] at h
  have hp := h.2
  simp only [requiredPred, Bool.and_eq_true, Bool.or_eq_true] at hp
  rcases hp.2.2 with hmsini | hmass
  · right
    have h2 := hmsini.2
    rcases hq : r.MSINI with _ | q
    · rw [hq] at h2
      simp [posQ] at h2
    · refine ⟨q, rfl, ?_⟩
      rw [hq] at h2
      simpa [posQ] using h2
  · left
    have h2 := hmass.2
    rcases hq : r.MASS with _ | q
    · rw [hq] at h2
      simp [posQ] at h2
    · refine ⟨q, rfl, ?_⟩
      rw [hq] at h2
      simpa [posQ] using h2

/-- A transmission-scorable row with a positive MSINI and no direct mass. -/
def rowW10 : CatalogRow :=
  ⟨"HD 10 b", "", "", some 1, some 1, some 1, some 5000,
    some 10, some 12, none, some 2⟩

theorem c10_posmass_witness :
    rowW10 ∈ filterTable SigType.transmission [rowW10]
      ∧ ((∃ q : ℚ, rowW10.MASS = some q ∧ 0 < q)
          ∨ (∃ q : ℚ, rowW10.MSINI = some q ∧ 0 < q)) :=
  ⟨by decide, c10_posmass [rowW10] rowW10 (by decide)⟩

/-- Numeric value of a catalog field, for contexts where the filter or the
reference guard has already established the field is finite.  (Contexts where
a NaN can still flow through arithmetic are modelled with Option values and
fop2 below.) -/
noncomputable def rval (o : Option ℚ) : ℝ := ((o.getD 0 : ℚ) : ℝ)

/-- Equilibrium temperature of a catalog row (line 42 via lines 267-280). -/
noncomputable def TeqRow (r : CatalogRow) : ℝ :=
  Teq (rval r.RSTAR) (rval r.A) (rval r.TEFF)

/-- Emission blackbody ratio planck(wav, Teq) / planck(wav, TEFF) (line 47). -/
noncomputable def bratioRowE (wav : ℝ) (r : CatalogRow) : ℝ :=
  planck wav (TeqRow r) / planck wav (rval r.TEFF)

/-- Emission flux ratio bratio * ((R * RJUP) / (RSTAR * RSUN))**2 (line 50). -/
noncomputable def fratioRowE (wav : ℝ) (r : CatalogRow) : ℝ :=
  bratioRowE wav r * ((rval r.R * RJUP) / (rval r.RSTAR * RSUN)) ^ 2

/-- Approximate stellar magnitude at the working wavelength (lines 54-55):
mag_star = KS - 2.5 * log10( planck(wav, TEFF) / planck(2.2e-6, TEFF) ). -/
noncomputable def magStarRowE (wav : ℝ) (r : CatalogRow) : ℝ :=
  rval r.KS - 2.5 * log10 (planck wav (rval r.TEFF) / planck 2.2e-6 (rval r.TEFF))

/-- Emission raw signal-to-noise (lines 62-69):
snr = sqrt( 10**(-mag/2.5) ) * fratio. -/
noncomputable def snrRowE (wav : ℝ) (r : CatalogRow) : ℝ :=
  Real.sqrt ((10:ℝ) ^ (-magStarRowE wav r / 2.5)) * fratioRowE wav r

/-- The emission-normalized score of the reference row itself: the entry of
snr_norm = snr_unnorm / snr_ref (line 86) at the reference index, where
snr_unnorm is evaluated at wav (line 69) and snr_ref at wav_ref (line 82). -/
noncomputable def snrNormRefE (wav wav_ref : ℝ) (r : CatalogRow) : ℝ :=
  snrRowE wav r / snrRowE wav_ref r

/-- Option-lifted binary operation on possibly-NaN floats: a NaN operand
(none) makes the result NaN, as in numpy arithmetic. -/
def fop2 (f : ℝ → ℝ → ℝ) : Option ℝ → Option ℝ → Option ℝ
  | some x, some y => some (f x y)
  | _, _ => none

/-- Resolved planetary mass MPLANET (lines 142-148).  The source wraps
MPLANET[i] = np.array( t.MASS[i], dtype=float ) in try/except with
MPLANET[i] = np.array( t.MSINI[i], dtype=float ) as the handler, but
converting a float NaN raises no exception, so for the float-valued MASS
column the handler is dead code and MPLANET is exactly the MASS value,
NaN where MASS is undefined. -/
noncomputable def MPLANETof (r : CatalogRow) : Option ℝ :=
  r.MASS.map (fun q : ℚ => (q : ℝ))

/-- Surface gravity little_g = G * MPLANET * MJUP / (R * RJUP)**2 (line 149). -/
noncomputable def littleGof (r : CatalogRow) : Option ℝ :=
  (MPLANETof r).map (fun m => G * m * MJUP / (rval r.R * RJUP) ^ 2)

/-- Atmospheric scale height Hatm = RGAS * Teq / MUJUP / little_g (line 153). -/
noncomputable def HatmOf (r : CatalogRow) : Option ℝ :=
  (littleGof r).map (fun g => RGAS * TeqRow r / MUJUP / g)

/-- Transit depth variation delta_tr = 2 * n * (R * RJUP) * Hatm /
(RSTAR * RSUN)**2 with n = 1 (lines 118, 160).  Line 196 recomputes the same
formula for the reference row (delta_tr_ref), so it is also this function. -/
noncomputable def deltaTrOf (r : CatalogRow) : Option ℝ :=
  (HatmOf r).map (fun h => 2 * 1 * (rval r.R * RJUP) * h / (rval r.RSTAR * RSUN) ^ 2)

/-- Magnitude and depth variation to raw signal-to-noise:
sqrt( 10**(-mag/2.5) ) * delta (lines 167-168 and analogues). -/
noncomputable def snrOfMag (mag d : ℝ) : ℝ :=
  Real.sqrt ((10:ℝ) ^ (-mag / 2.5)) * d

/-- Visible-wavelength raw score from the Ks magnitude (lines 165-168):
bratio = planck(wav_vis, TEFF) / planck(2.2e-6, TEFF),
mag = KS - 2.5 * log10(bratio), snr = sqrt(10**(-mag/2.5)) * delta_tr.
NaN where KS or the resolved mass is undefined. -/
noncomputable def snrVisK (wav_vis : ℝ) (r : CatalogRow) : Option ℝ :=
  fop2 snrOfMag
    (r.KS.map (fun ks : ℚ => (ks : ℝ) -
      2.5 * log10 (planck wav_vis (rval r.TEFF) / planck 2.2e-6 (rval r.TEFF))))
    (deltaTrOf r)

/-- Infrared raw score from the Ks magnitude (lines 170-173). -/
noncomputable def snrIrK (wav_ir : ℝ) (r : CatalogRow) : Option ℝ :=
  fop2 snrOfMag
    (r.KS.map (fun ks : ℚ => (ks : ℝ) -
      2.5 * log10 (planck wav_ir (rval r.TEFF) / planck 2.2e-6 (rval r.TEFF))))
    (deltaTrOf r)

/-- Visible-wavelength substitution for rows with undefined KS
(lines 179-182): V-band magnitude with the 0.6 micron reference wavelength. -/
noncomputable def snrVisSub (wav_vis : ℝ) (r : CatalogRow) : Option ℝ :=
  fop2 snrOfMag
    (r.V.map (fun v : ℚ => (v : ℝ) -
      2.5 * log10 (planck wav_vis (rval r.TEFF) / planck 0.6e-6 (rval r.TEFF))))
    (deltaTrOf r)

/-- Infrared substitution for rows with undefined KS (lines 184-187).  The
source reads mag = t.KS[ixs] - 2.5 * log10(bratio) here, i.e. it uses the Ks
magnitude, which on these rows is NaN by the definition of ixs, and it keeps
the 2.2 micron reference wavelength. -/
noncomputable def snrIrSub (wav_ir : ℝ) (r : CatalogRow) : Option ℝ :=
  fop2 snrOfMag
    (r.KS.map (fun ks : ℚ => (ks : ℝ) -
      2.5 * log10 (planck wav_ir (rval r.TEFF) / planck 2.2e-6 (rval r.TEFF))))
    (deltaTrOf r)

/-- Net visible raw score of a row after the ixs overwrite (lines 165-182):
K-band based where KS is finite, V-band substitution where it is not. -/
noncomputable def snrUnnormVis (wav_vis : ℝ) (r : CatalogRow) : Option ℝ :=
  if r.KS.isSome then snrVisK wav_vis r else snrVisSub wav_vis r

/-- Net infrared raw score of a row after the ixs overwrite
(lines 170-173 and 184-187). -/
noncomputable def snrUnnormIr (wav_ir : ℝ) (r : CatalogRow) : Option ℝ :=
  if r.KS.isSome then snrIrK wav_ir r else snrIrSub wav_ir r

/-- Reference-row infrared raw score (lines 196-201): Ks magnitude with
kratio_ref = planck(wav_ref, TEFF) / planck(2.2e-6, TEFF). -/
noncomputable def snrRefIr (wav_ref : ℝ) (r : CatalogRow) : Option ℝ :=
  fop2 snrOfMag
    (r.KS.map (fun ks : ℚ => (ks : ℝ) -
      2.5 * log10 (planck wav_ref (rval r.TEFF) / planck 2.2e-6 (rval r.TEFF))))
    (deltaTrOf r)

/-- Reference-row visible raw score (lines 203-205): the V magnitude with the
same kratio_ref (2.2 micron denominator), unlike the per-row visible score. -/
noncomputable def snrRefVis (wav_ref : ℝ) (r : CatalogRow) : Option ℝ :=
  fop2 snrOfMag
    (r.V.map (fun v : ℚ => (v : ℝ) -
      2.5 * log10 (planck wav_ref (rval r.TEFF) / planck 2.2e-6 (rval r.TEFF))))
    (deltaTrOf r)

/-- The visible normalized score of the reference row itself: the entry of
snr_norm_vis = snr_unnorm_vis / snr_ref_vis (line 209) at the reference
index. -/
noncomputable def refNormVis (wav_vis wav_ref : ℝ) (r : CatalogRow) : Option ℝ :=
  fop2 (fun a b => a / b) (snrUnnormVis wav_vis r) (snrRefVis wav_ref r)

/-- The infrared normalized score of the reference row itself: the entry of
snr_norm_ir = snr_unnorm_ir / snr_ref_ir (line 210) at the reference index. -/
noncomputable def refNormIr (wav_ir wav_ref : ℝ) (r : CatalogRow) : Option ℝ :=
  fop2 (fun a b => a / b) (snrUnnormIr wav_ir r) (snrRefIr wav_ref r)

theorem TeqRow_pos {r : CatalogRow} (hrs : 0 < rval r.RSTAR)
    (ha : 0 < rval r.A) (hte : 0 < rval r.TEFF) : 0 < TeqRow r := by
  unfold TeqRow Teq
  have h1 : 0 < rval r.RSTAR * RSUN / 2 / (rval r.A * AU2M) := by
    have hRS : (0:ℝ) < RSUN := by norm_num [RSUN]
    have hAU : (0:ℝ) < AU2M := by norm_num [AU2M]
    positivity
  exact mul_pos (Real.sqrt_pos.mpr h1) hte

theorem deltaTr_pos {r : CatalogRow} {mq : ℚ} (hm : r.MASS = some mq)
    (hmq : 0 < mq) (hrp : 0 < rval r.R) (hrs : 0 < rval r.RSTAR)
    (ha : 0 < rval r.A) (hte : 0 < rval r.TEFF) :
    ∃ d : ℝ, deltaTrOf r = some d ∧ 0 < d := by
  have hform : deltaTrOf r = some (2 * 1 * (rval r.R * RJUP) *
      (RGAS * TeqRow r / MUJUP / (G * (mq : ℝ) * MJUP / (rval r.R * RJUP) ^ 2)) /
      (rval r.RSTAR * RSUN) ^ 2) := by
    unfold deltaTrOf HatmOf littleGof MPLANETof
    rw [hm]
    simp only [Option.map_some']
  refine ⟨_, hform, ?_⟩
  have hT := TeqRow_pos hrs ha hte
  have hRJ : (0:ℝ) < RJUP := by norm_num [RJUP]
  have hRS : (0:ℝ) < RSUN := by norm_num [RSUN]
  have hG : (0:ℝ) < G := by norm_num [G]
  have hMJ : (0:ℝ) < MJUP := by norm_num [MJUP]
  have hRG : (0:ℝ) < RGAS := by norm_num [RGAS]
  have hMU : (0:ℝ) < MUJUP := by norm_num [MUJUP]
  have hmr : (0:ℝ) < (mq : ℝ) := by exact_mod_cast hmq
  positivity

theorem snrRowE_pos {wav : ℝ} {r : CatalogRow} (hw : 0 < wav)
    (hte : 0 < rval r.TEFF) (hrs : 0 < rval r.RSTAR)
    (hrp : 0 < rval r.R) (ha : 0 < rval r.A) : 0 < snrRowE wav r := by
  unfold snrRowE
  apply mul_pos
  · exact Real.sqrt_pos.mpr (Real.rpow_pos_of_pos (by norm_num) _)
  · unfold fratioRowE bratioRowE
    apply mul_pos
    · exact div_pos (planck_pos_aux hw (TeqRow_pos hrs ha hte)) (planck_pos_aux hw hte)
    · have hRJ : (0:ℝ) < RJUP := by norm_num [RJUP]
      have hRS : (0:ℝ) < RSUN := by norm_num [RSUN]
      positivity

theorem snrOfMag_pos {mag d : ℝ} (hd : 0 < d) : 0 < snrOfMag mag d :=
  mul_pos (Real.sqrt_pos.mpr (Real.rpow_pos_of_pos (by norm_num) _)) hd

theorem snrOfMag_div {a b d : ℝ} (hd : 0 < d) :
    snrOfMag a d / snrOfMag b d = Real.sqrt ((10:ℝ) ^ (-a / 2.5 - -b / 2.5)) := by
  unfold snrOfMag
  rw [mul_div_mul_comm, div_self hd.ne', mul_one,
    ← Real.sqrt_div (Real.rpow_nonneg (by norm_num) _),
    ← Real.rpow_sub (by norm_num)]

/-- Claim C1 (amended): when the working wavelength equals the reference
wavelength, the reference row's own normalized score is 1 for the emission
pipeline and for the infrared transmission score; the visible transmission
score of the reference row is not covered, because its raw score is computed
from the Ks magnitude while the normalizing score uses the V magnitude. -/
theorem c1_amended (wav_ref : ℝ) (r : CatalogRow) (ksq mq : ℚ)
    (hw : 0 < wav_ref) (hte : 0 < rval r.TEFF) (hrs : 0 < rval r.RSTAR)
    (hrp : 0 < rval r.R) (ha : 0 < rval r.A)
    (hks : r.KS = some ksq) (hm : r.MASS = some mq) (hmq : 0 < mq) :
    snrNormRefE wav_ref wav_ref r = 1 ∧ refNormIr wav_ref wav_ref r = some 1 := by
  constructor
  · exact div_self (snrRowE_pos hw hte hrs hrp ha).ne'
  · obtain ⟨d, hd, hdpos⟩ := deltaTr_pos hm hmq hrp hrs ha hte
    have hx : 0 < snrOfMag ((ksq : ℝ) -
        2.5 * log10 (planck wav_ref (rval r.TEFF) / planck 2.2e-6 (rval r.TEFF))) d :=
      snrOfMag_pos hdpos
    simp only [refNormIr, snrUnnormIr, snrIrK, snrRefIr, hks, hd,
      Option.isSome_some, if_true, Option.map_some', fop2]
    rw [div_self hx.ne']

/-- The WASP-19 b style reference row used in concrete runs below. -/
def rowC1 : CatalogRow :=
  ⟨"WASP-19 b", "", "", some 1, some 1, some 1, some 5000,
    some 10, some 12, some 1, none⟩

theorem c1_amended_witness :
    snrNormRefE 2.2e-6 2.2e-6 rowC1 = 1
      ∧ refNormIr 2.2e-6 2.2e-6 rowC1 = some 1 :=
  c1_amended 2.2e-6 rowC1 10 1 (by norm_num) (by norm_num [rval, rowC1])
    (by norm_num [rval, rowC1]) (by norm_num [rval, rowC1])
    (by norm_num [rval, rowC1]) rfl rfl (by norm_num)

/-- Claim C1 is false as stated: in a transmission run with
wav_vis = wav_ref = 2.2 micron on a reference row with KS = 10 and V = 12,
the reference row's own visible normalized score is 10 to the power 0.4,
not 1, because its raw visible score uses KS while the normalizing score
uses V. -/
theorem c1_counterexample : refNormVis 2.2e-6 2.2e-6 rowC1 ≠ some 1 := by
  obtain ⟨d, hd, hdpos⟩ := deltaTr_pos (r := rowC1) rfl (by norm_num)
    (by norm_num [rval, rowC1]) (by norm_num [rval, rowC1])
    (by norm_num [rval, rowC1]) (by norm_num [rval, rowC1])
  have hks : rowC1.KS = some 10 := rfl
  have hv : rowC1.V = some 12 := rfl
  simp only [refNormVis, snrUnnormVis, snrVisK, snrRefVis, hks, hv, hd,
    Option.isSome_some, if_true, Option.map_some', fop2]
  intro hEq
  rw [Option.some_inj, snrOfMag_div hdpos] at hEq
  rw [show -(((10:ℚ) : ℝ) -
        2.5 * log10 (planck 2.2e-6 (rval rowC1.TEFF) / planck 2.2e-6 (rval rowC1.TEFF))) / 2.5
      - -(((12:ℚ) : ℝ) -
        2.5 * log10 (planck 2.2e-6 (rval rowC1.TEFF) / planck 2.2e-6 (rval rowC1.TEFF))) / 2.5
      = (4:ℝ)/5 by push_cast; ring] at hEq
  have hgt : (1:ℝ) < Real.sqrt ((10:ℝ) ^ ((4:ℝ)/5)) := by
    rw [Real.lt_sqrt (by norm_num), one_pow]
    exact (Real.one_lt_rpow_iff_of_pos (by norm_num)).mpr
      (Or.inl ⟨by norm_num, by norm_num⟩)
  rw [hEq] at hgt
  exact lt_irrefl 1 hgt

/-- A transmission-scorable row whose KS magnitude is undefined. -/
def rowC2 : CatalogRow :=
  ⟨"GJ 2 b", "", "", some 1, some 1, some 1, some 5000,
    none, some 12, some 1, none⟩

/-- Claim C2 exposes a code bug: a filtered row with undefined KS keeps its
place in the transmission run, its visible score is computed from V as
claimed, but its infrared score is computed from the NaN KS value (line 185),
so it is NaN rather than V-based. -/
theorem c2_bug :
    rowC2 ∈ filterTable SigType.transmission [rowC2]
      ∧ snrUnnormIr 2.2e-6 rowC2 = none
      ∧ (snrUnnormVis 0.7e-6 rowC2).isSome = true := by
  refine ⟨by decide, ?_, ?_⟩
  · simp [snrUnnormIr, snrIrSub, fop2, rowC2]
  · obtain ⟨d, hd, _⟩ := deltaTr_pos (r := rowC2) rfl (by norm_num)
      (by norm_num [rval, rowC2]) (by norm_num [rval, rowC2])
      (by norm_num [rval, rowC2]) (by norm_num [rval, rowC2])
    simp only [snrUnnormVis, snrVisSub, show rowC2.KS = none from rfl,
      show rowC2.V = some 12 from rfl, Option.isSome_none, Bool.false_eq_true,
      if_false, Option.map_some', hd, fop2, Option.isSome_some]

/-- A transmission-scorable row with only a minimum mass defined. -/
def rowC6 : CatalogRow :=
  ⟨"HD 6 b", "", "", some 1, some 1, some 1, some 5000,
    some 10, some 12, none, some 1⟩

/-- Claim C6 exposes a code bug: a row with undefined MASS and positive
MSINI is kept by the transmission filter, but the mass resolution never
falls back to MSINI (converting a NaN raises no exception), so the resolved
mass and with it the scale height and depth variation are NaN. -/
theorem c6_bug :
    rowC6 ∈ filterTable SigType.transmission [rowC6]
      ∧ MPLANETof rowC6 = none ∧ deltaTrOf rowC6 = none := by
  refine ⟨by decide, by simp [MPLANETof, rowC6], ?_⟩
  simp [deltaTrOf, HatmOf, littleGof, MPLANETof, rowC6]

/-- Ascending argsort, the model of np.argsort(xs): the list of indices of
xs ordered by their values, equal values kept in index order (stable).
numpy's default quicksort promises no tie order; every comparison sort
agrees with this model on the two-element arrays used below. -/
def argsortAsc {α : Type} [Inhabited α] (le : α → α → Prop) [hle : DecidableRel le]
    (xs : List α) : List ℕ :=
  @List.insertionSort ℕ (fun i j => le (xs.getD i default) (xs.getD j default))
    (fun i j => hle (xs.getD i default) (xs.getD j default)) (List.range xs.length)

/-- The rank ordering of both pipelines (lines 88-90 and 212-214):
s = np.argsort(scores) followed by s = s[::-1]. -/
def rankOrder {α : Type} [Inhabited α] (le : α → α → Prop) [DecidableRel le]
    (xs : List α) : List ℕ :=
  (argsortAsc le xs).reverse

theorem length_rankOrder {α : Type} [Inhabited α] (le : α → α → Prop)
    [DecidableRel le] (xs : List α) : (rankOrder le xs).length = xs.length := by
  simp only [rankOrder, argsortAsc, List.length_reverse,
    List.length_insertionSort, List.length_range]

/-- Claim C5 (amended): the rank order is a permutation of the row indices
and the scores it visits are descending: for consecutive ranks the later
score is less than or equal to the earlier one.  Equal scores appear in
reverse original order (see the counterexample), not original order. -/
theorem c5_amended (xs : List ℝ) (i : ℕ)
    (h : i + 1 < (rankOrder (fun a b : ℝ => a ≤ b) xs).length) :
    (rankOrder (fun a b : ℝ => a ≤ b) xs).Perm (List.range xs.length)
      ∧ xs.getD ((rankOrder (fun a b : ℝ => a ≤ b) xs).getD (i + 1) 0) 0
        ≤ xs.getD ((rankOrder (fun a b : ℝ => a ≤ b) xs).getD i 0) 0 := by
  constructor
  · exact (List.reverse_perm _).trans (List.perm_insertionSort _ _)
  · have hs : List.Sorted
        (fun i j : ℕ => xs.getD i default ≤ xs.getD j default)
        (argsortAsc (fun a b : ℝ => a ≤ b) xs) := by
      haveI : IsTotal ℕ (fun i j : ℕ => xs.getD i default ≤ xs.getD j default) :=
        ⟨fun a b => le_total _ _⟩
      haveI : IsTrans ℕ (fun i j : ℕ => xs.getD i default ≤ xs.getD j default) :=
        ⟨fun a b c h1 h2 => le_trans h1 h2⟩
      exact List.sorted_insertionSort _ _
    have hp : List.Pairwise
        (fun a b : ℕ => xs.getD b default ≤ xs.getD a default)
        (rankOrder (fun a b : ℝ => a ≤ b) xs) :=
      List.pairwise_reverse.mpr hs
    have h1 : i < (rankOrder (fun a b : ℝ => a ≤ b) xs).length :=
      Nat.lt_of_succ_lt h
    have key := (List.pairwise_iff_get.mp hp) ⟨i, h1⟩ ⟨i + 1, h⟩
      (by simp [Fin.lt_def])
    rw [List.getD_eq_getElem _ _ h, List.getD_eq_getElem _ _ h1]
    simpa [List.get_eq_getElem] using key

/-- Claim C5 is false as stated on tie-breaking: two rows with equal scores
come out in reverse original order, because the ascending argsort is
reversed.  Stable original-order ties would give the output order 0 then 1;
the pipelines produce 1 then 0. -/
theorem c5_counterexample :
    rankOrder (fun a b : ℝ => a ≤ b) [1, 1] = [1, 0]
      ∧ ([1, 0] : List ℕ) ≠ [0, 1] := by
  constructor
  · have h01 : List.range (List.length ([1, 1] : List ℝ)) = [0, 1] := rfl
    unfold rankOrder argsortAsc
    rw [h01]
    simp [List.insertionSort, List.orderedInsert]
  · decide

theorem c5_amended_witness :
    (rankOrder (fun a b : ℝ => a ≤ b) [1, 2]).Perm (List.range 2)
      ∧ ([1, 2] : List ℝ).getD
          ((rankOrder (fun a b : ℝ => a ≤ b) [1, 2]).getD (0 + 1) 0) 0
        ≤ ([1, 2] : List ℝ).getD
          ((rankOrder (fun a b : ℝ => a ≤ b) [1, 2]).getD 0 0) 0 :=
  c5_amended [1, 2] 0 (by rw [length_rankOrder]; norm_num)

/-- Failure modes observable in a run of either entry point.
missingReferenceData is the transmission reference-magnitude guard
(lines 130-135: a message is printed and None is returned before any
computation).  insufficientCatalogData is the failure mode named by the
spec for an empty filtered table; no code path produces it, it is included
so that its absence can be stated.  broadcastError is the numpy ValueError
from broadcasting shapes (n,) against (m,) in the normalization divisions
(lines 86 and 209).  indexError is the IndexError from indexing the argsort
result inside the write loop (lines 97-98 and 221-222).  truthValueError is
the numpy ValueError from taking the truth value of a multi-element array in
the transmission guard (line 133), possible only with duplicate names. -/
inductive RunError
  | missingReferenceData
  | insufficientCatalogData
  | broadcastError
  | indexError
  | truthValueError
deriving DecidableEq

/-- Outcome of a run.  ok carries the ranked list of planet names written to
the output file; err carries the failure together with the names written
before the failure, none when the output file was never opened.  The header
text and numeric report columns are not modelled. -/
inductive RunResult
  | ok (file : List String)
  | err (e : RunError) (partFile : Option (List String))
deriving DecidableEq

/-- Elementwise division of 1-d numpy arrays under broadcasting: lengths must
match or one operand must have length 1 (callers check this first and fail
with broadcastError otherwise). -/
noncomputable def broadcastDiv (xs ys : List ℝ) : List ℝ :=
  if ys.length = 1 then xs.map (fun x => x / ys.headI)
  else if xs.length = ys.length then xs.zipWith (fun x y => x / y) ys
  else if xs.length = 1 then ys.map (fun y => xs.headI / y)
  else []

/-- broadcastDiv on possibly-NaN values. -/
noncomputable def broadcastDivO (xs ys : List (Option ℝ)) : List (Option ℝ) :=
  if ys.length = 1 then xs.map (fun x => fop2 (fun a b => a / b) x ys.headI)
  else if xs.length = ys.length then xs.zipWith (fun x y => fop2 (fun a b => a / b) x y) ys
  else if xs.length = 1 then ys.map (fun y => fop2 (fun a b => a / b) xs.headI y)
  else []

/-- Comparison used by the argsort model on possibly-NaN scores: numpy sorts
NaN after every number in ascending order. -/
def oleNaN : Option ℝ → Option ℝ → Prop
  | _, none => True
  | none, some _ => False
  | some x, some y => x ≤ y

noncomputable instance : DecidableRel oleNaN := fun a b =>
  match a, b with
  | some _, none => Decidable.isTrue trivial
  | none, none => Decidable.isTrue trivial
  | none, some _ => Decidable.isFalse (fun h => h)
  | some x, some y => inferInstanceAs (Decidable (x ≤ y))

/-- The emission entry point (lines 22-106), modelled to the point where
ranked rows are written: ok carries the planet names in output order.  The
reference selection ii = (t.NAME == obj_ref) has no existence check; when it
selects m rows, the normalization snr_norm = snr_unnorm / snr_ref (line 86)
broadcasts shapes (n,) and (m,), a ValueError unless m = n, m = 1 or n = 1.
The write loop indexes s = argsort(snr_norm)[::-1] at positions up to n - 1
(line 98), an IndexError when snr_norm is shorter than n, at which point the
header has already been written to the opened output file. -/
noncomputable def emissionRun (wav wav_ref : ℝ) (obj_ref : String)
    (rows : List CatalogRow) : RunResult :=
  let wavm := wav / 1e6
  let wavrefm := wav_ref / 1e6
  let t := filterTable SigType.emission rows
  let nplanets := t.length
  let snr_unnorm := t.map (fun r => snrRowE wavm r)
  let refs := t.filter (fun r => r.NAME == obj_ref)
  let snr_ref := refs.map (fun r => snrRowE wavrefm r)
  if nplanets = refs.length ∨ refs.length = 1 ∨ nplanets = 1 then
    let snr_norm := broadcastDiv snr_unnorm snr_ref
    let s := rankOrder (fun a b : ℝ => a ≤ b) snr_norm
    if nplanets ≤ s.length then
      RunResult.ok ((s.take nplanets).map (fun i => (t.getD i default).NAME))
    else
      RunResult.err RunError.indexError
        (some (s.map (fun i => (t.getD i default).NAME)))
  else RunResult.err RunError.broadcastError none

/-- The transmission entry point (lines 108-239), modelled like emissionRun.
The reference guard (lines 132-135) evaluates
bool(isfinite(KS[ix]) == False) or bool(isfinite(V[ix]) == False): with no
matching row both arrays are empty and falsy, so the guard passes vacuously;
with one matching row it fires exactly when KS or V is undefined; with two
or more matching rows bool() of a multi-element array raises.  Ranking uses
only the visible normalized scores (line 213); the infrared normalized
scores feed report columns only and are modelled per-row by snrUnnormIr and
snrRefIr above. -/
noncomputable def transmissionRun (wav_vis wav_ir wav_ref : ℝ) (obj_ref : String)
    (rows : List CatalogRow) : RunResult :=
  let wv := wav_vis / 1e6
  let _wi := wav_ir / 1e6
  let wr := wav_ref / 1e6
  let t := filterTable SigType.transmission rows
  let nplanets := t.length
  let refs := t.filter (fun r => r.NAME == obj_ref)
  if 2 ≤ refs.length then RunResult.err RunError.truthValueError none
  else if (match refs with
           | [r] => r.KS.isNone || r.V.isNone
           | _ => false) then
    RunResult.err RunError.missingReferenceData none
  else
    let snr_vis := t.map (fun r => snrUnnormVis wv r)
    let snr_ref_vis := refs.map (fun r => snrRefVis wr r)
    if nplanets = refs.length ∨ refs.length = 1 ∨ nplanets = 1 then
      let snr_norm_vis := broadcastDivO snr_vis snr_ref_vis
      let s := rankOrder oleNaN snr_norm_vis
      if nplanets ≤ s.length then
        RunResult.ok ((s.take nplanets).map (fun i => (t.getD i default).NAME))
      else
        RunResult.err RunError.indexError
          (some (s.map (fun i => (t.getD i default).NAME)))
    else RunResult.err RunError.broadcastError none

theorem emissionRun_absent_ref {wav wav_ref : ℝ} {ref : String}
    {rows : List CatalogRow}
    (habs : (filterTable SigType.emission rows).filter (fun r => r.NAME == ref) = [])
    (hn : 2 ≤ (filterTable SigType.emission rows).length) :
    emissionRun wav wav_ref ref rows = RunResult.err RunError.broadcastError none := by
  simp only [emissionRun, habs, List.length_nil]
  rw [if_neg (by omega)]

theorem transmissionRun_absent_ref {wav_vis wav_ir wav_ref : ℝ} {ref : String}
    {rows : List CatalogRow}
    (habs : (filterTable SigType.transmission rows).filter
      (fun r => r.NAME == ref) = [])
    (hn : 2 ≤ (filterTable SigType.transmission rows).length) :
    transmissionRun wav_vis wav_ir wav_ref ref rows
      = RunResult.err RunError.broadcastError none := by
  simp only [transmissionRun, habs, List.length_nil]
  rw [if_neg (by omega), if_neg (by simp), if_neg (by omega)]

theorem transmissionRun_missing_mag {wav_vis wav_ir wav_ref : ℝ} {ref : String}
    {rows : List CatalogRow} {r : CatalogRow}
    (href : (filterTable SigType.transmission rows).filter
      (fun x => x.NAME == ref) = [r])
    (hKV : (r.KS.isNone || r.V.isNone) = true) :
    transmissionRun wav_vis wav_ir wav_ref ref rows
      = RunResult.err RunError.missingReferenceData none := by
  simp only [transmissionRun, href, List.length_cons, List.length_nil]
  rw [if_neg (by omega), if_pos (by simp [hKV])]

theorem emissionRun_empty {wav wav_ref : ℝ} {ref : String}
    {rows : List CatalogRow} (h : filterTable SigType.emission rows = []) :
    emissionRun wav wav_ref ref rows = RunResult.ok [] := by
  simp only [emissionRun, h, List.filter_nil, List.map_nil, List.length_nil]
  simp [broadcastDiv, rankOrder, argsortAsc]

theorem transmissionRun_empty {wav_vis wav_ir wav_ref : ℝ} {ref : String}
    {rows : List CatalogRow} (h : filterTable SigType.transmission rows = []) :
    transmissionRun wav_vis wav_ir wav_ref ref rows = RunResult.ok [] := by
  simp only [transmissionRun, h, List.filter_nil, List.map_nil, List.length_nil]
  simp [broadcastDivO, rankOrder, argsortAsc]

/-- Claim C3 (amended): when the reference identifier is absent from the
filtered catalog, the transmission guard passes vacuously (an empty numpy
array is falsy) and both pipelines fail only later, with a broadcasting
error in the normalization division, after all per-row scores have been
computed; no output file is produced (the two-or-more-rows hypothesis
avoids the one-row corner where the write loop crashes after the header is
written).  Only a reference that is present but lacks a finite KS or V
magnitude makes the transmission run fail up front in the guard, the
realization of the spec's MissingReferenceData; emission has no reference
check at all. -/
theorem c3_amended (wav wav_ref wv wi wr : ℝ) (ref : String)
    (rows : List CatalogRow) (r : CatalogRow) :
    ((filterTable SigType.emission rows).filter (fun x => x.NAME == ref) = [] →
        2 ≤ (filterTable SigType.emission rows).length →
        emissionRun wav wav_ref ref rows = RunResult.err RunError.broadcastError none)
      ∧ ((filterTable SigType.transmission rows).filter (fun x => x.NAME == ref) = [] →
        2 ≤ (filterTable SigType.transmission rows).length →
        transmissionRun wv wi wr ref rows
          = RunResult.err RunError.broadcastError none)
      ∧ ((filterTable SigType.transmission rows).filter (fun x => x.NAME == ref) = [r] →
        (r.KS.isNone || r.V.isNone) = true →
        transmissionRun wv wi wr ref rows
          = RunResult.err RunError.missingReferenceData none) :=
  ⟨fun habs hn => emissionRun_absent_ref habs hn,
    fun habs hn => transmissionRun_absent_ref habs hn,
    fun href hKV => transmissionRun_missing_mag href hKV⟩

/-- Claim C3 is false as stated: an emission run whose reference identifier
is absent from the filtered catalog fails with the numpy broadcasting error
at the normalization step, after the per-row computation, not with a
MissingReferenceData failure before any computation. -/
theorem c3_counterexample :
    emissionRun 2.2 2.2 "WASP-12 b" [rowC1, rowC6]
        = RunResult.err RunError.broadcastError none
      ∧ RunError.broadcastError ≠ RunError.missingReferenceData :=
  ⟨emissionRun_absent_ref (by decide) (by decide), by decide⟩

theorem c3_amended_witness :
    emissionRun 2.2 2.2 "NOPE" [rowC1, rowC6]
        = RunResult.err RunError.broadcastError none
      ∧ transmissionRun 0.7 2.2 2.2 "GJ 2 b" [rowC2]
        = RunResult.err RunError.missingReferenceData none := by
  constructor
  · exact (c3_amended 2.2 2.2 0.7 2.2 2.2 "NOPE" [rowC1, rowC6] default).1
      (by decide) (by decide)
  · exact (c3_amended 2.2 2.2 0.7 2.2 2.2 "GJ 2 b" [rowC2] rowC2).2.2
      (by decide) (by decide)

/-- A row missing the always-required stellar radius: filtered out for both
signal types. -/
def rowBare : CatalogRow :=
  ⟨"Bare b", "", "", none, some 1, some 1, some 5000, some 10, some 12,
    some 1, some 1⟩

/-- Claim C4 (amended): filter_table performs no emptiness check and nothing
raises an InsufficientCatalogData failure; when the filtered table is empty
both runs complete normally and write an output file containing the header
and zero data rows. -/
theorem c4_amended (wav wav_ref wv wi wr : ℝ) (ref : String)
    (rows : List CatalogRow) :
    (filterTable SigType.emission rows = [] →
        emissionRun wav wav_ref ref rows = RunResult.ok [])
      ∧ (filterTable SigType.transmission rows = [] →
        transmissionRun wv wi wr ref rows = RunResult.ok []) :=
  ⟨fun h => emissionRun_empty h, fun h => transmissionRun_empty h⟩

/-- Claim C4 is false as stated: a catalog whose rows all fail the filter
leaves the emission run succeeding with a header-only output file, not
aborting with an InsufficientCatalogData failure. -/
theorem c4_counterexample :
    filterTable SigType.emission [rowBare] = []
      ∧ emissionRun 2.2 2.2 "WASP-19 b" [rowBare] = RunResult.ok []
      ∧ RunResult.ok ([] : List String)
          ≠ RunResult.err RunError.insufficientCatalogData none :=
  ⟨by decide, emissionRun_empty (by decide), by decide⟩

theorem c4_amended_witness :
    emissionRun 2.2 2.2 "X" [rowBare] = RunResult.ok []
      ∧ transmissionRun 0.7 2.2 2.2 "X" [rowBare] = RunResult.ok [] :=
  ⟨(c4_amended 2.2 2.2 0.7 2.2 2.2 "X" [rowBare]).1 (by decide),
    (c4_amended 2.2 2.2 0.7 2.2 2.2 "X" [rowBare]).2 (by decide)⟩

theorem c8_teq_witness :
    Teq 1 1 5000 = Real.sqrt (1 * RSUN / (2 * (1 * AU2M))) * 5000
      ∧ Teq 1 (2 * 1) 5000 = Teq 1 1 5000 / Real.sqrt 2 :=
  c8_teq 1 1 5000 (by norm_num) (by norm_num)

end Vistransits
